import Mathlib

/-!
# Snowbridge Ethereum 2 beacon light client — shallow embedding

A shallow embedding of `parachain/pallets/ethereum-beacon-light-client/src/lib.rs`
(the Altair light-client verifier pallet) together with theorems checking the
natural-language specification against it.

Modelling conventions:
* Machine integers (`u64`, `u8`, `u32`) become `Nat`; truncating casts and
  overflow are made explicit at the places where they matter.
* `H256` values (32-byte roots) become `List Nat`; in Rust the type system
  guarantees length 32, so theorems carry explicit length hypotheses where the
  code relies on it.
* Rust panics (out-of-bounds indexing, arithmetic overflow, division by zero)
  are modelled as `Option.none`; recoverable `DispatchResult` errors as
  `Except.error`.
* External collaborators — `sp_io::hashing::sha2_256`, the `merklization`
  module's SSZ hash-tree-root functions (which return
  `Result<[u8; 32], MerkleizationError>`), and the `milagro_bls` primitives —
  are abstracted into an `Oracles` record; the pallet's own control flow and
  error mapping around them is embedded faithfully.
* Substrate storage maps become function-typed fields of `LightClientStore`;
  `ValueQuery` storage yields the type's default on absent keys, `OptionQuery`
  yields `none`.  `#[transactional]` dispatch reverts all writes on error, so a
  failing extrinsic leaves the store unchanged.
-/

namespace BeaconLightClient

/-- A 32-byte root (`sp_core::H256`); `Domain` is the same type. -/
abbrev H256 := List Nat

/-- Source `type ForkVersion = [u8; 4]`. -/
abbrev ForkVersion := List Nat

/-- BLS public key, `PublicKey([u8; 48])`. -/
abbrev PublicKey := List Nat

/-- Source `const SLOTS_PER_EPOCH: u64 = 32`. -/
def SLOTS_PER_EPOCH : Nat := 32

/-- Source `const EPOCHS_PER_SYNC_COMMITTEE_PERIOD: u64 = 256`. -/
def EPOCHS_PER_SYNC_COMMITTEE_PERIOD : Nat := 256

/-- Source `const CURRENT_SYNC_COMMITTEE_INDEX: u64 = 22`. -/
def CURRENT_SYNC_COMMITTEE_INDEX : Nat := 22

/-- Source `const CURRENT_SYNC_COMMITTEE_DEPTH: u64 = 5`. -/
def CURRENT_SYNC_COMMITTEE_DEPTH : Nat := 5

/-- Source `const NEXT_SYNC_COMMITTEE_DEPTH: u64 = 5`. -/
def NEXT_SYNC_COMMITTEE_DEPTH : Nat := 5

/-- Source `const NEXT_SYNC_COMMITTEE_INDEX: u64 = 23`. -/
def NEXT_SYNC_COMMITTEE_INDEX : Nat := 23

/-- Source `const FINALIZED_ROOT_DEPTH: u64 = 6`. -/
def FINALIZED_ROOT_DEPTH : Nat := 6

/-- Source `const FINALIZED_ROOT_INDEX: u64 = 41`. -/
def FINALIZED_ROOT_INDEX : Nat := 41

/-- Source `const MIN_SYNC_COMMITTEE_PARTICIPANTS: u64 = 1`. -/
def MIN_SYNC_COMMITTEE_PARTICIPANTS : Nat := 1

/-- Source `const GENESIS_FORK_VERSION: ForkVersion = [30, 30, 30, 30];`
The Rust source carries the doc comment `GENESIS_FORK_VERSION('0x00000000')`
but the literal actually written is `[30, 30, 30, 30]`. -/
def GENESIS_FORK_VERSION : ForkVersion := [30, 30, 30, 30]

/-- Source `const DOMAIN_SYNC_COMMITTEE: [u8; 4] = [7, 0, 0, 0];` -/
def DOMAIN_SYNC_COMMITTEE : List Nat := [7, 0, 0, 0]

/-- Source `struct BeaconBlockHeader`. -/
structure BeaconBlockHeader where
  slot : Nat
  proposer_index : Nat
  parent_root : H256
  state_root : H256
  body_root : H256
  deriving DecidableEq, Repr, Inhabited

/-- Source `struct SyncCommittee { pubkeys: Vec<PublicKey>, aggregate_pubkey: PublicKey }`. -/
structure SyncCommittee where
  pubkeys : List PublicKey
  aggregate_pubkey : PublicKey
  deriving DecidableEq, Repr

/-- Source `struct SyncAggregate`. -/
structure SyncAggregate where
  sync_committee_bits : List Nat
  sync_committee_signature : List Nat
  deriving DecidableEq, Repr

/-- Source `struct LightClientInitialSync`. -/
structure LightClientInitialSync where
  header : BeaconBlockHeader
  current_sync_committee : SyncCommittee
  current_sync_committee_branch : List H256
  validators_root : H256
  deriving DecidableEq, Repr

/-- Source `struct LightClientSyncCommitteePeriodUpdate`. -/
structure LightClientSyncCommitteePeriodUpdate where
  attested_header : BeaconBlockHeader
  next_sync_committee : SyncCommittee
  next_sync_committee_branch : List H256
  finalized_header : BeaconBlockHeader
  finality_branch : List H256
  sync_aggregate : SyncAggregate
  fork_version : ForkVersion
  sync_committee_period : Nat
  deriving DecidableEq, Repr

/-- Source `struct LightClientUnverifiedHeader`. -/
structure LightClientUnverifiedHeader where
  attested_header : BeaconBlockHeader
  finalized_header : BeaconBlockHeader
  sync_aggregate : SyncAggregate
  fork_version : ForkVersion
  period : Nat
  deriving DecidableEq, Repr

/-- Source `struct LightClientFinalizedHeaderUpdate`. -/
structure LightClientFinalizedHeaderUpdate where
  attested_header : BeaconBlockHeader
  finalized_header : BeaconBlockHeader
  finality_branch : List H256
  sync_aggregate : SyncAggregate
  fork_version : ForkVersion
  deriving DecidableEq, Repr

/-- Source `struct ForkData { current_version: [u8; 4], genesis_validators_root: [u8; 32] }`. -/
structure ForkData where
  current_version : ForkVersion
  genesis_validators_root : List Nat
  deriving DecidableEq, Repr

/-- Source `struct SigningData { object_root: Root, domain: Domain }`. -/
structure SigningData where
  object_root : H256
  domain : H256
  deriving DecidableEq, Repr

/-- Source `struct Genesis { validators_root: Root }`. -/
structure Genesis where
  validators_root : H256
  deriving DecidableEq, Repr

/-- The pallet's `Error<T>` enum. -/
inductive PalletError where
  | ancientHeader
  | skippedSyncCommitteePeriod
  | syncCommitteeMissing
  | unknown
  | insufficientSyncCommitteeParticipants
  | invalidSyncCommiteeSignature
  | invalidHeaderMerkleProof
  | invalidSyncCommitteeMerkleProof
  | invalidSignature
  | invalidSignaturePoint
  | invalidAggregatePublicKeys
  | invalidHash
  | signatureVerificationFailed
  | noBranchExpected
  | unverifiedHeaderNotFound
  deriving DecidableEq, Repr

/-- Source `sp_runtime::DispatchError`, restricted to the variants the pallet
produces: `DispatchError::Other(&str)` (from `map_err` on SSZ failures) and a
module error (`Error::<T>::… .into()`). -/
inductive DispatchError where
  | other (msg : String)
  | module (e : PalletError)
  deriving DecidableEq, Repr

/-! ## Pure helper functions of the pallet -/

/-- The inner `while remaining > 0` loop of `convert_to_binary`: repeatedly
push `remaining % 2` and divide by two.  The loop halves `remaining` each
iteration, so a fuel of the starting value is always sufficient; the fuel
encoding only makes the recursion structural. -/
def toLEBitsAux : Nat → Nat → List Nat
  | 0, _ => []
  | fuel + 1, remaining =>
    if remaining = 0 then []
    else remaining % 2 :: toLEBitsAux fuel (remaining / 2)

/-- Per-byte body of `convert_to_binary`: the div-mod loop followed by
`if tmp.len() < 8 { for i in tmp.len()..8 { tmp.push(0) } }`
(`List.replicate (8 - len) 0` appends nothing when `len ≥ 8`, exactly like the
Rust padding loop). -/
def byteToBits (input_decimal : Nat) : List Nat :=
  let tmp := toLEBitsAux input_decimal input_decimal
  tmp ++ List.replicate (8 - tmp.length) 0

/-- Source `fn convert_to_binary(input: Vec<u8>) -> Vec<u8>`: decode every byte into
its little-endian bits, each byte's output padded with zeros to 8 entries, and
concatenate in input order. -/
def convert_to_binary (input : List Nat) : List Nat :=
  (input.map byteToBits).flatten

/-- Source `fn get_sync_committee_sum(sync_committee_bits: Vec<u8>) -> u64`. -/
def get_sync_committee_sum (sync_committee_bits : List Nat) : Nat :=
  sync_committee_bits.foldl (fun acc x => acc + x) 0

/-- Source `fn compute_current_sync_period(slot: u64) -> u64`. -/
def compute_current_sync_period (slot : Nat) : Nat :=
  slot / SLOTS_PER_EPOCH / EPOCHS_PER_SYNC_COMMITTEE_PERIOD

/-! ## Merkle proof engine -/

/-- The `for i in 0..depth` loop of `is_valid_merkle_branch`, over the list of
remaining loop indices.  Per iteration the Rust code:
* indexes `branch[i as usize]` — out of bounds panics (`none`);
* early-returns `false` when the sibling has fewer than 32 bytes
  (dead in Rust, where `H256` is always 32 bytes);
* computes `index / (2u32.pow(i as u32) as u64) % 2` — the exponent is the
  `u32` truncation `i % 2^32`, and an exponent ≥ 32 panics: `pow` overflows
  with overflow checks on, and with them off it wraps to `0` and the division
  by zero panics (`none`);
* hashes `value ∥ branch[i]` (left node) or `branch[i] ∥ value` (right node).
`Sum.inl b` models `return b` out of the whole function, `Sum.inr v` the value
reaching the end of the loop. -/
def merkleLoop (sha : List Nat → H256) (branch : List H256) (index : Nat) :
    List Nat → H256 → Option (Bool ⊕ H256)
  | [], value => some (Sum.inr value)
  | i :: rest, value =>
    match branch[i]? with
    | none => none
    | some b =>
      if b.length < 32 then some (Sum.inl false)
      else if 32 ≤ i % 2 ^ 32 then none
      else if index / 2 ^ (i % 2 ^ 32) % 2 = 0 then
        merkleLoop sha branch index rest (sha (value ++ b))
      else
        merkleLoop sha branch index rest (sha (b ++ value))

/-- Source `fn is_valid_merkle_branch(leaf, branch, depth, index, root) -> bool`,
with panics modelled as `none`. -/
def is_valid_merkle_branch (sha : List Nat → H256) (leaf : H256)
    (branch : List H256) (depth index : Nat) (root : H256) : Option Bool :=
  if leaf.length < 32 then some false
  else
    match merkleLoop sha branch index (List.range depth) leaf with
    | none => none
    | some (Sum.inl b) => some b
    | some (Sum.inr value) => some (decide (value = root))

/-! ## External collaborators

The SSZ hash-tree-root functions live in the pallet's `merklization` module
(they return `Result<[u8; 32], MerkleizationError>`; a 32-byte root on
success), `sha2_256` comes from `sp_io`, and signature parsing / aggregation /
pairing come from `milagro_bls`.  They are abstracted here; every claim below
is decided by the pallet code around them. -/

/-- Source `milagro_bls::AmclError`, reduced to the distinction the pallet makes:
`InvalidPoint` versus everything else. -/
inductive AmclError where
  | invalidPoint
  | otherAmcl
  deriving DecidableEq, Repr

structure Oracles where
  /-- `sp_io::hashing::sha2_256` (always returns 32 bytes). -/
  sha : List Nat → H256
  /-- `merklization::hash_tree_root_beacon_header`; `none` is any
  `MerkleizationError`. -/
  hash_tree_root_beacon_header : BeaconBlockHeader → Option H256
  /-- `merklization::hash_tree_root_sync_committee`. -/
  hash_tree_root_sync_committee : SyncCommittee → Option H256
  /-- `merklization::hash_tree_root_fork_data`. -/
  hash_tree_root_fork_data : ForkData → Option H256
  /-- `merklization::hash_tree_root_signing_data`. -/
  hash_tree_root_signing_data : SigningData → Option H256
  /-- Does `milagro_bls::Signature::from_bytes` succeed on these bytes? -/
  signature_from_bytes_ok : List Nat → Bool
  /-- `milagro_bls::PublicKey::from_bytes_unchecked`: `none` = success,
  `some e` = the `AmclError` returned. -/
  pubkey_from_bytes : PublicKey → Option AmclError
  /-- Does `AggregatePublicKey::into_aggregate` succeed on these keys? -/
  into_aggregate_ok : List PublicKey → Bool
  /-- `fast_aggregate_verify_pre_aggregated` on the aggregate of the given
  keys, the message bytes, and the signature the aggregate signature was
  built from. -/
  fast_aggregate_verify : List PublicKey → H256 → List Nat → Bool

/-! ## Domain, signing root, BLS verification -/

/-- Source `fn compute_fork_data_root(current_version, genesis_validators_root)`. -/
def compute_fork_data_root (o : Oracles) (current_version : ForkVersion)
    (genesis_validators_root : H256) : Except DispatchError H256 :=
  match o.hash_tree_root_fork_data
      { current_version, genesis_validators_root } with
  | none => .error (.other "Fork data hash tree root failed")
  | some hash_root => .ok hash_root

/-- Source `fn compute_domain(domain_type, fork_version, genesis_validators_root)`.
The Rust builds a `[u8; 32]` by `copy_from_slice`: bytes `0..4` from
`domain_type` (panicking — `none` — unless it has exactly 4 bytes) and bytes
`4..32` from the first 28 bytes of the fork-data root (a 32-byte `H256`, so
that copy cannot panic). -/
def compute_domain (o : Oracles) (domain_type : List Nat)
    (fork_version : Option ForkVersion) (genesis_validators_root : H256) :
    Option (Except DispatchError H256) :=
  let unwrapped_fork_version :=
    match fork_version with
    | none => GENESIS_FORK_VERSION
    | some v => v
  match compute_fork_data_root o unwrapped_fork_version genesis_validators_root with
  | .error e => some (.error e)
  | .ok fork_data_root =>
    if domain_type.length = 4 then
      some (.ok (domain_type ++ fork_data_root.take 28))
    else none

/-- Source `fn compute_signing_root(beacon_header, domain)`. -/
def compute_signing_root (o : Oracles) (beacon_header : BeaconBlockHeader)
    (domain : H256) : Except DispatchError H256 :=
  match o.hash_tree_root_beacon_header beacon_header with
  | none => .error (.other "Beacon header hash tree root failed")
  | some beacon_header_root =>
    match o.hash_tree_root_signing_data
        { object_root := beacon_header_root, domain } with
    | none => .error (.other "Signing root hash tree root failed")
    | some hash_root => .ok hash_root

/-- Source `fn bls_fast_aggregate_verify(pubkeys, message, signature)`: parse the
signature (`InvalidSignature` on failure), parse each public key in order
(`InvalidSignaturePoint` on `AmclError::InvalidPoint`, `InvalidSignature`
otherwise), aggregate (`InvalidAggregatePublicKeys` on failure), then check
the pairing (`SignatureVerificationFailed` when it returns false). -/
def bls_fast_aggregate_verify (o : Oracles) (pubkeys : List PublicKey)
    (message : H256) (signature : List Nat) : Except DispatchError Unit :=
  if o.signature_from_bytes_ok signature then
    match pubkeys.findSome? o.pubkey_from_bytes with
    | some .invalidPoint => .error (.module .invalidSignaturePoint)
    | some .otherAmcl => .error (.module .invalidSignature)
    | none =>
      if o.into_aggregate_ok pubkeys then
        if o.fast_aggregate_verify pubkeys message signature then .ok ()
        else .error (.module .signatureVerificationFailed)
      else .error (.module .invalidAggregatePublicKeys)
  else .error (.module .invalidSignature)

/-- The participant-gathering loop of `verify_signed_header`:
`for (bit, pubkey) in sync_committee_bits.iter().zip(sync_committee_pubkeys.iter())`
pushing `pubkey` whenever `*bit == 1`. -/
def participant_pubkeys_of (sync_committee_bits : List Nat)
    (sync_committee_pubkeys : List PublicKey) : List PublicKey :=
  (((sync_committee_bits.zip sync_committee_pubkeys).filter
    (fun p => p.1 == 1)).map (fun p => p.2))

/-- Source `fn verify_signed_header(bits_hex, signature, pubkeys, fork_version,
header, validators_root)`. -/
def verify_signed_header (o : Oracles) (sync_committee_bits_hex : List Nat)
    (sync_committee_signature : List Nat)
    (sync_committee_pubkeys : List PublicKey) (fork_version : ForkVersion)
    (header : BeaconBlockHeader) (validators_root : H256) :
    Option (Except DispatchError Unit) :=
  let sync_committee_bits := convert_to_binary sync_committee_bits_hex
  if get_sync_committee_sum sync_committee_bits < MIN_SYNC_COMMITTEE_PARTICIPANTS
  then some (.error (.module .insufficientSyncCommitteeParticipants))
  else
    let participant_pubkeys :=
      participant_pubkeys_of sync_committee_bits sync_committee_pubkeys
    let domain_type := DOMAIN_SYNC_COMMITTEE
    match compute_domain o domain_type (some fork_version) validators_root with
    | none => none
    | some (.error e) => some (.error e)
    | some (.ok domain) =>
      match compute_signing_root o header domain with
      | .error e => some (.error e)
      | .ok signing_root =>
        some (bls_fast_aggregate_verify o participant_pubkeys signing_root
          sync_committee_signature)

/-! ## Merkle-proof wrappers -/

/-- Source `fn verify_sync_committee(sync_committee, sync_committee_branch,
header_state_root, depth, index)`: hash the committee (mapping any failure to
`DispatchError::Other("Sync committee hash tree root failed")`), then
`ensure!` the Merkle branch, failing `InvalidSyncCommitteeMerkleProof`. -/
def verify_sync_committee (o : Oracles) (sync_committee : SyncCommittee)
    (sync_committee_branch : List H256) (header_state_root : H256)
    (depth index : Nat) : Option (Except DispatchError Unit) :=
  match o.hash_tree_root_sync_committee sync_committee with
  | none => some (.error (.other "Sync committee hash tree root failed"))
  | some sync_committee_root =>
    match is_valid_merkle_branch o.sha sync_committee_root
        sync_committee_branch depth index header_state_root with
    | none => none
    | some ok =>
      if ok then some (.ok ())
      else some (.error (.module .invalidSyncCommitteeMerkleProof))

/-- Source `fn verify_header(header, proof_branch, attested_header_state_root,
depth, index)`: hash the header (mapping failures to
`DispatchError::Other("Header hash tree root failed")`), then `ensure!` the
Merkle branch, failing `InvalidHeaderMerkleProof`. -/
def verify_header (o : Oracles) (header : BeaconBlockHeader)
    (proof_branch : List H256) (attested_header_state_root : H256)
    (depth index : Nat) : Option (Except DispatchError Unit) :=
  match o.hash_tree_root_beacon_header header with
  | none => some (.error (.other "Header hash tree root failed"))
  | some leaf =>
    match is_valid_merkle_branch o.sha leaf proof_branch depth index
        attested_header_state_root with
    | none => none
    | some ok =>
      if ok then some (.ok ())
      else some (.error (.module .invalidHeaderMerkleProof))

/-! ## Persistent store -/

/-- The pallet's five storage items.  `SyncCommittees` and `ChainGenesis` are
`ValueQuery` (reads of absent data return the `Default` value), the other
three are `OptionQuery` maps.  -/
structure LightClientStore where
  finalizedHeaders : H256 → Option BeaconBlockHeader
  finalizedHeadersBySlot : Nat → Option H256
  unverifiedHeaders : Nat → Option LightClientUnverifiedHeader
  syncCommittees : Nat → SyncCommittee
  chainGenesis : Genesis

/-- Source `Default for PublicKey`: `PublicKey([0u8; 48])`. -/
def defaultPublicKey : PublicKey := List.replicate 48 0

/-- The `Default` sync committee, which `ValueQuery` returns for absent
periods: `SyncCommittee { pubkeys: vec![], aggregate_pubkey: PublicKey([0; 48]) }`. -/
def defaultSyncCommittee : SyncCommittee :=
  { pubkeys := [], aggregate_pubkey := defaultPublicKey }

/-- The genesis (empty) storage state. -/
def initialStore : LightClientStore where
  finalizedHeaders := fun _ => none
  finalizedHeadersBySlot := fun _ => none
  unverifiedHeaders := fun _ => none
  syncCommittees := fun _ => defaultSyncCommittee
  chainGenesis := { validators_root := List.replicate 32 0 }

/-- Source `fn store_sync_committee(period, sync_committee)`. -/
def store_sync_committee (period : Nat) (sync_committee : SyncCommittee)
    (st : LightClientStore) : LightClientStore :=
  { st with syncCommittees :=
      fun p => if p = period then sync_committee else st.syncCommittees p }

/-- Source `fn store_header(header)`: insert into `FinalizedHeaders` keyed by
`body_root` and into `FinalizedHeadersBySlot` keyed by `slot`. -/
def store_header (header : BeaconBlockHeader) (st : LightClientStore) :
    LightClientStore :=
  { st with
    finalizedHeaders :=
      fun r => if r = header.body_root then some header
               else st.finalizedHeaders r
    finalizedHeadersBySlot :=
      fun s => if s = header.slot then some header.body_root
               else st.finalizedHeadersBySlot s }

/-- Source `fn store_genesis(genesis)`. -/
def store_genesis (genesis : Genesis) (st : LightClientStore) :
    LightClientStore :=
  { st with chainGenesis := genesis }

/-- Source `fn store_unverified_signed_header(slot, unverified_header)`. -/
def store_unverified_signed_header (slot : Nat)
    (unverified_header : LightClientUnverifiedHeader)
    (st : LightClientStore) : LightClientStore :=
  { st with unverifiedHeaders :=
      fun s => if s = slot then some unverified_header
               else st.unverifiedHeaders s }

/-- Source `<UnverifiedHeaders<T>>::remove(slot)`. -/
def remove_unverified_header (slot : Nat) (st : LightClientStore) :
    LightClientStore :=
  { st with unverifiedHeaders :=
      fun s => if s = slot then none else st.unverifiedHeaders s }

/-! ## Update processing

Each `process_*` function returns the updated store on success.  A
`some (.error e)` result reverts all writes (`#[transactional]` dispatch), and
a `none` (panic) aborts the extrinsic, also leaving storage unchanged, so the
state after a failed call is the state before it. -/

/-- Source `fn process_initial_sync(initial_sync)`. -/
def process_initial_sync (o : Oracles) (initial_sync : LightClientInitialSync)
    (st : LightClientStore) : Option (Except DispatchError LightClientStore) :=
  match verify_sync_committee o initial_sync.current_sync_committee
      initial_sync.current_sync_committee_branch
      initial_sync.header.state_root
      CURRENT_SYNC_COMMITTEE_DEPTH CURRENT_SYNC_COMMITTEE_INDEX with
  | none => none
  | some (.error e) => some (.error e)
  | some (.ok ()) =>
    let period := compute_current_sync_period initial_sync.header.slot
    some (.ok (store_genesis { validators_root := initial_sync.validators_root }
      (store_header initial_sync.header
        (store_sync_committee period initial_sync.current_sync_committee st))))

/-- Source `fn process_sync_committee_period_update(update)`. -/
def process_sync_committee_period_update (o : Oracles)
    (update : LightClientSyncCommitteePeriodUpdate) (st : LightClientStore) :
    Option (Except DispatchError LightClientStore) :=
  match verify_sync_committee o update.next_sync_committee
      update.next_sync_committee_branch update.finalized_header.state_root
      NEXT_SYNC_COMMITTEE_DEPTH NEXT_SYNC_COMMITTEE_INDEX with
  | none => none
  | some (.error e) => some (.error e)
  | some (.ok ()) =>
    match verify_header o update.finalized_header update.finality_branch
        update.attested_header.state_root
        FINALIZED_ROOT_DEPTH FINALIZED_ROOT_INDEX with
    | none => none
    | some (.error e) => some (.error e)
    | some (.ok ()) =>
      let current_period := compute_current_sync_period update.attested_header.slot
      let slot := update.finalized_header.slot
      let unverified_header : LightClientUnverifiedHeader :=
        { attested_header := update.attested_header
          finalized_header := update.finalized_header
          sync_aggregate := update.sync_aggregate
          fork_version := update.fork_version
          period := current_period }
      some (.ok (store_unverified_signed_header slot unverified_header
        (store_sync_committee (current_period + 1) update.next_sync_committee st)))

/-- Source `fn process_finalized_header(update)`. -/
def process_finalized_header (o : Oracles)
    (update : LightClientFinalizedHeaderUpdate) (st : LightClientStore) :
    Option (Except DispatchError LightClientStore) :=
  match verify_header o update.finalized_header update.finality_branch
      update.attested_header.state_root
      FINALIZED_ROOT_DEPTH FINALIZED_ROOT_INDEX with
  | none => none
  | some (.error e) => some (.error e)
  | some (.ok ()) =>
    let current_period := compute_current_sync_period update.attested_header.slot
    let slot := update.finalized_header.slot
    let unverified_header : LightClientUnverifiedHeader :=
      { attested_header := update.attested_header
        finalized_header := update.finalized_header
        sync_aggregate := update.sync_aggregate
        fork_version := update.fork_version
        period := current_period }
    some (.ok (store_unverified_signed_header slot unverified_header st))

/-- Source `fn verify_and_store_finalized_header(slot)`. -/
def verify_and_store_finalized_header (o : Oracles) (slot : Nat)
    (st : LightClientStore) : Option (Except DispatchError LightClientStore) :=
  match st.unverifiedHeaders slot with
  | none => some (.error (.module .unverifiedHeaderNotFound))
  | some unverified_header =>
    let sync_committee := st.syncCommittees unverified_header.period
    if defaultSyncCommittee = sync_committee then
      some (.error (.module .syncCommitteeMissing))
    else
      let genesis := st.chainGenesis
      match verify_signed_header o
          unverified_header.sync_aggregate.sync_committee_bits
          unverified_header.sync_aggregate.sync_committee_signature
          sync_committee.pubkeys unverified_header.fork_version
          unverified_header.attested_header genesis.validators_root with
      | none => none
      | some (.error e) => some (.error e)
      | some (.ok ()) =>
        some (.ok (remove_unverified_header slot
          (store_header unverified_header.finalized_header st)))

/-! ## Extrinsics

Each `#[pallet::call]` accepts any signed origin, logs, and delegates to the
matching `process_*`/`verify_*` function; logging has no state effect. -/

/-- Extrinsic `initial_sync(origin, initial_sync)`. -/
def initial_sync (o : Oracles) (u : LightClientInitialSync)
    (st : LightClientStore) : Option (Except DispatchError LightClientStore) :=
  process_initial_sync o u st

/-- Extrinsic `sync_committee_period_update(origin, update)`. -/
def sync_committee_period_update (o : Oracles)
    (u : LightClientSyncCommitteePeriodUpdate) (st : LightClientStore) :
    Option (Except DispatchError LightClientStore) :=
  process_sync_committee_period_update o u st

/-- Extrinsic `finalized_header_update(origin, update)`. -/
def finalized_header_update (o : Oracles)
    (u : LightClientFinalizedHeaderUpdate) (st : LightClientStore) :
    Option (Except DispatchError LightClientStore) :=
  process_finalized_header o u st

/-- Extrinsic `import_finalized_header(origin, slot)`. -/
def import_finalized_header (o : Oracles) (slot : Nat)
    (st : LightClientStore) : Option (Except DispatchError LightClientStore) :=
  verify_and_store_finalized_header o slot st

/-- States reachable from empty storage by any sequence of the four
extrinsics.  A failing or panicking call commits nothing, so only `.ok`
results advance the state. -/
inductive Reachable (o : Oracles) : LightClientStore → Prop where
  | empty : Reachable o initialStore
  | initialSyncStep (u : LightClientInitialSync) (st st' : LightClientStore) :
      Reachable o st → initial_sync o u st = some (.ok st') → Reachable o st'
  | committeeUpdateStep (u : LightClientSyncCommitteePeriodUpdate)
      (st st' : LightClientStore) :
      Reachable o st → sync_committee_period_update o u st = some (.ok st') →
      Reachable o st'
  | finalizedUpdateStep (u : LightClientFinalizedHeaderUpdate)
      (st st' : LightClientStore) :
      Reachable o st → finalized_header_update o u st = some (.ok st') →
      Reachable o st'
  | importHeaderStep (slot : Nat) (st st' : LightClientStore) :
      Reachable o st → import_finalized_header o slot st = some (.ok st') →
      Reachable o st'

/-! ## Specification-side definitions -/

/-- The Merkle root computation exactly as the specification words it
(§4.2): the bottom-up fold of SHA-256 over `i` in `0..depth`, hashing
`value ∥ branch[i]` when bit `i` of `index` is 0 and `branch[i] ∥ value` when
it is 1, starting from `leaf`.  This is the spec's description, used to
compare against `is_valid_merkle_branch` from the source; out-of-range
siblings are totalised with the empty list. -/
def spec_merkle_root (sha : List Nat → H256) (leaf : H256)
    (branch : List H256) (depth index : Nat) : H256 :=
  (List.range depth).foldl
    (fun value i =>
      if (index >>> i) &&& 1 = 0 then sha (value ++ branch.getD i [])
      else sha (branch.getD i [] ++ value))
    leaf

/-! ## Concrete fixtures for witnesses and counterexamples -/

/-- The all-zero 32-byte root. -/
def zeroRoot : H256 := List.replicate 32 0

/-- A hash function collapsing everything to `zeroRoot`; instantiating the
abstract `sha2_256` for concrete evaluations. -/
def constSha : List Nat → H256 := fun _ => zeroRoot

/-! ## Helper lemmas -/

theorem zip_take_length_left (l1 : List Nat) (l2 : List PublicKey) :
    (l1.take l2.length).zip l2 = l1.zip l2 := by
  induction l1 generalizing l2 with
  | nil => simp
  | cons a t ih =>
    cases l2 with
    | nil => simp
    | cons b s => simp [List.zip_cons_cons, ih]

theorem zip_take_length_right (l1 : List Nat) (l2 : List PublicKey) :
    l1.zip (l2.take l1.length) = l1.zip l2 := by
  induction l1 generalizing l2 with
  | nil => simp
  | cons a t ih =>
    cases l2 with
    | nil => simp
    | cons b s => simp [List.zip_cons_cons, ih]

/-- On a list of in-range loop indices pointing at full 32-byte siblings, the
Rust loop neither panics nor early-returns, and computes the left/right
SHA-256 fold the specification describes. -/
theorem merkleLoop_eq_fold (sha : List Nat → H256) (branch : List H256)
    (index : Nat) (idxs : List Nat) (value : H256)
    (hidx : ∀ i ∈ idxs, i < branch.length ∧ i < 32)
    (hbr : ∀ b ∈ branch, 32 ≤ b.length) :
    merkleLoop sha branch index idxs value =
      some (Sum.inr (idxs.foldl
        (fun v i =>
          if (index >>> i) &&& 1 = 0 then sha (v ++ branch.getD i [])
          else sha (branch.getD i [] ++ v))
        value)) := by
  induction idxs generalizing value with
  | nil => rfl
  | cons i rest ih =>
    obtain ⟨hilen, hi32⟩ := hidx i (List.mem_cons_self i rest)
    have hget : branch[i]? = some branch[i] := List.getElem?_eq_getElem hilen
    have hmem : branch[i] ∈ branch := List.getElem_mem hilen
    have hblen : ¬ branch[i].length < 32 := not_lt.mpr (hbr _ hmem)
    have hmod : i % 2 ^ 32 = i :=
      Nat.mod_eq_of_lt (lt_trans hi32 (by norm_num))
    have hgetD : branch.getD i [] = branch[i] := by
      simp [List.getD_eq_getElem?_getD, hget]
    rw [merkleLoop, hget]
    simp only [hblen, if_false, hmod, Nat.not_le.mpr hi32, if_neg (not_le.mpr hi32)]
    rw [List.foldl_cons]
    by_cases hbit : index / 2 ^ i % 2 = 0
    · have hbit' : (index >>> i) &&& 1 = 0 := by
        rw [Nat.and_one_is_mod, Nat.shiftRight_eq_div_pow]; exact hbit
      rw [if_pos hbit, if_pos hbit', hgetD]
      exact ih _ (fun j hj => hidx j (List.mem_cons_of_mem i hj))
    · have hbit' : ¬ (index >>> i) &&& 1 = 0 := by
        rw [Nat.and_one_is_mod, Nat.shiftRight_eq_div_pow]; exact hbit
      rw [if_neg hbit, if_neg hbit', hgetD]
      exact ih _ (fun j hj => hidx j (List.mem_cons_of_mem i hj))

/-- C1, amended: for a 32-byte leaf and a branch of at least `depth` full
32-byte siblings, with `depth ≤ 32`, `is_valid_merkle_branch` returns exactly
whether the specification's fold yields `root` (with `depth = 0` this is
`leaf == root`).  The hypotheses `32 ≤ leaf.length` and `∀ b ∈ branch,
32 ≤ b.length` hold for every Rust `H256`; `depth ≤ branch.length` and
`depth ≤ 32` exclude the panicking executions. -/
theorem is_valid_merkle_branch_iff_fold (sha : List Nat → H256) (leaf : H256)
    (branch : List H256) (depth index : Nat) (root : H256)
    (hleaf : 32 ≤ leaf.length) (hdepth : depth ≤ branch.length)
    (h32 : depth ≤ 32) (hbr : ∀ b ∈ branch, 32 ≤ b.length) :
    is_valid_merkle_branch sha leaf branch depth index root =
      some (decide (spec_merkle_root sha leaf branch depth index = root)) := by
  unfold is_valid_merkle_branch
  rw [if_neg (not_lt.mpr hleaf)]
  rw [merkleLoop_eq_fold sha branch index (List.range depth) leaf
    (fun i hi => by
      have := List.mem_range.mp hi
      exact ⟨lt_of_lt_of_le this hdepth, lt_of_lt_of_le this h32⟩)
    hbr]
  rfl

/-- C1 witness: the amended theorem evaluated at a concrete one-level proof. -/
theorem is_valid_merkle_branch_iff_fold_witness :
    is_valid_merkle_branch constSha zeroRoot [zeroRoot] 1 0 zeroRoot =
      some (decide (spec_merkle_root constSha zeroRoot [zeroRoot] 1 0 = zeroRoot)) :=
  is_valid_merkle_branch_iff_fold constSha zeroRoot [zeroRoot] 1 0 zeroRoot
    (by decide) (by decide) (by decide) (by decide)

/-- C1 counterexample: with `depth = 1` and an empty branch the specified
fold (siblings totalised with `[]`) yields the root, yet
`is_valid_merkle_branch` returns neither `true` nor `false` — the Rust
`branch[0]` indexing panics — so "returns true iff the fold yields root" (and
the spec's "`branch.len() < depth` returns false") fails at this input. -/
theorem is_valid_merkle_branch_short_branch_no_bool :
    is_valid_merkle_branch constSha zeroRoot [] 1 0 zeroRoot ≠ some true ∧
    is_valid_merkle_branch constSha zeroRoot [] 1 0 zeroRoot ≠ some false ∧
    spec_merkle_root constSha zeroRoot [] 1 0 = zeroRoot := by decide

/-- C2: at `leaf = root = 0x00…00`, `branch = []`, `depth = 1`, `index = 0`,
the call hits the out-of-bounds `branch[0]` and panics (`none`) — the code
aborts where the claim (and the defensive sibling-length checks inside the
very same loop) say it should return `false`. -/
theorem is_valid_merkle_branch_short_branch_panics :
    is_valid_merkle_branch constSha zeroRoot [] 1 0 zeroRoot = none := by rfl

/-! ## C7: bit decoding -/

set_option maxRecDepth 4096 in
/-- Each byte value below 256 decodes to exactly its eight little-endian
bits. -/
theorem byteToBits_bits : ∀ b : Fin 256,
    byteToBits b.val = [b.val &&& 1, b.val >>> 1 &&& 1, b.val >>> 2 &&& 1,
      b.val >>> 3 &&& 1, b.val >>> 4 &&& 1, b.val >>> 5 &&& 1,
      b.val >>> 6 &&& 1, b.val >>> 7 &&& 1] := by decide

/-- C7: for byte-valued input, `convert_to_binary` expands each byte `b` at
position `k` to the eight flags `(b >> j) & 1`, `j = 0..7`, at positions
`8k+j` — i.e. it equals the concatenation of the per-byte little-endian
8-bit decodings. -/
theorem convert_to_binary_little_endian (input : List Nat)
    (h : ∀ b ∈ input, b < 256) :
    convert_to_binary input =
      (input.map (fun b => [b &&& 1, b >>> 1 &&& 1, b >>> 2 &&& 1,
        b >>> 3 &&& 1, b >>> 4 &&& 1, b >>> 5 &&& 1, b >>> 6 &&& 1,
        b >>> 7 &&& 1])).flatten := by
  induction input with
  | nil => rfl
  | cons b t ih =>
    have hb : b < 256 := h b (List.mem_cons_self b t)
    have hkey := byteToBits_bits ⟨b, hb⟩
    simp only [convert_to_binary, List.map_cons, List.flatten_cons] at *
    rw [hkey, ih (fun x hx => h x (List.mem_cons_of_mem b hx))]

/-- C7 witness: the claim's own concrete example,
`convert_to_binary([10, 33]) = [0,1,0,1,0,0,0,0, 1,0,0,0,0,1,0,0]`. -/
theorem convert_to_binary_example :
    convert_to_binary [10, 33] =
      [0, 1, 0, 1, 0, 0, 0, 0, 1, 0, 0, 0, 0, 1, 0, 0] :=
  (convert_to_binary_little_endian [10, 33] (by decide)).trans (by decide)

/-! ## C4: the genesis fork version constant -/

/-- C4: the constant actually written in the source is `[30, 30, 30, 30]`
(`0x1e1e1e1e`), not the `0x00000000` its own doc comment (and the spec)
state, and `compute_domain` with `fork_version = None` computes the fork-data
root with exactly that constant. -/
theorem genesis_fork_version_value :
    GENESIS_FORK_VERSION = [30, 30, 30, 30] ∧
    GENESIS_FORK_VERSION ≠ [0, 0, 0, 0] ∧
    ∀ (o : Oracles) (domain_type : List Nat) (gvr : H256),
      compute_domain o domain_type none gvr =
        compute_domain o domain_type (some [30, 30, 30, 30]) gvr :=
  ⟨rfl, by decide, fun _ _ _ => rfl⟩

/-! ## C3: error value on SSZ hash-tree-root failure -/

/-- The all-zero beacon block header. -/
def zeroHeader : BeaconBlockHeader :=
  { slot := 0, proposer_index := 0, parent_root := zeroRoot,
    state_root := zeroRoot, body_root := zeroRoot }

/-- An oracle on which every SSZ hash-tree-root computation fails and every
BLS primitive rejects. -/
def failOracle : Oracles where
  sha := constSha
  hash_tree_root_beacon_header := fun _ => none
  hash_tree_root_sync_committee := fun _ => none
  hash_tree_root_fork_data := fun _ => none
  hash_tree_root_signing_data := fun _ => none
  signature_from_bytes_ok := fun _ => false
  pubkey_from_bytes := fun _ => some .otherAmcl
  into_aggregate_ok := fun _ => false
  fast_aggregate_verify := fun _ _ _ => false

/-- A minimal `LightClientInitialSync` payload. -/
def sampleInitialSync : LightClientInitialSync :=
  { header := zeroHeader, current_sync_committee := defaultSyncCommittee,
    current_sync_committee_branch := [], validators_root := zeroRoot }

/-- C3, amended: an SSZ hash-tree-root failure makes the operation fail with
`DispatchError::Other(...)` naming the failed computation — produced by the
`map_err(|_| DispatchError::Other("…"))?` sites — and such an error is never
the module error `InvalidHash` (which the pallet declares but never
returns). -/
theorem ssz_failure_yields_other_error :
    (∀ (o : Oracles) (ini : LightClientInitialSync) (st : LightClientStore),
      o.hash_tree_root_sync_committee ini.current_sync_committee = none →
      process_initial_sync o ini st =
        some (.error (.other "Sync committee hash tree root failed"))) ∧
    (∀ (o : Oracles) (hdr : BeaconBlockHeader) (domain : H256),
      o.hash_tree_root_beacon_header hdr = none →
      compute_signing_root o hdr domain =
        .error (.other "Beacon header hash tree root failed")) ∧
    (∀ msg : String, DispatchError.other msg ≠ .module .invalidHash) := by
  refine ⟨?_, ?_, ?_⟩
  · intro o ini st h
    simp [process_initial_sync, verify_sync_committee, h]
  · intro o hdr domain h
    simp [compute_signing_root, h]
  · intro msg
    simp

/-- C3 witness: the amended theorem evaluated on a concretely failing
oracle. -/
theorem ssz_failure_yields_other_error_witness :
    process_initial_sync failOracle sampleInitialSync initialStore =
      some (.error (.other "Sync committee hash tree root failed")) :=
  ssz_failure_yields_other_error.1 failOracle sampleInitialSync initialStore rfl

/-- C3 counterexample: when the sync-committee hash-tree-root inside
`initial_sync` fails, the operation fails with
`DispatchError::Other("Sync committee hash tree root failed")`, which is not
the module error `InvalidHash` the claim names. -/
theorem initial_sync_ssz_failure_not_invalid_hash :
    process_initial_sync failOracle sampleInitialSync initialStore =
      some (.error (.other "Sync committee hash tree root failed")) ∧
    DispatchError.other "Sync committee hash tree root failed" ≠
      DispatchError.module .invalidHash :=
  ⟨rfl, by decide⟩

/-! ## C10: participant selection zips bits with pubkeys -/

/-- C10: `verify_signed_header` does no length validation between the decoded
participation flags and the committee key list: public keys beyond the number
of decoded flags never influence the result, and flags beyond the number of
public keys contribute no participant — selection is a plain zip, truncating
at the shorter list. -/
theorem verify_signed_header_zip_truncates :
    ∀ (o : Oracles) (bits sig : List Nat) (pubkeys : List PublicKey)
      (fv : ForkVersion) (hdr : BeaconBlockHeader) (vroot : H256),
      verify_signed_header o bits sig pubkeys fv hdr vroot =
        verify_signed_header o bits sig
          (pubkeys.take (convert_to_binary bits).length) fv hdr vroot ∧
      participant_pubkeys_of (convert_to_binary bits) pubkeys =
        participant_pubkeys_of
          ((convert_to_binary bits).take pubkeys.length) pubkeys := by
  intro o bits sig pubkeys fv hdr vroot
  constructor
  · have hz : (convert_to_binary bits).zip
        (pubkeys.take (convert_to_binary bits).length) =
        (convert_to_binary bits).zip pubkeys :=
      zip_take_length_right _ _
    simp only [verify_signed_header, participant_pubkeys_of, hz]
  · have hz : ((convert_to_binary bits).take pubkeys.length).zip pubkeys =
        (convert_to_binary bits).zip pubkeys :=
      zip_take_length_left _ _
    simp only [participant_pubkeys_of, hz]

/-! ## Store projection lemmas -/

theorem store_header_finalizedHeaders (hdr : BeaconBlockHeader)
    (st : LightClientStore) (r : H256) :
    (store_header hdr st).finalizedHeaders r =
      if r = hdr.body_root then some hdr else st.finalizedHeaders r := rfl

theorem store_header_finalizedHeadersBySlot (hdr : BeaconBlockHeader)
    (st : LightClientStore) (s : Nat) :
    (store_header hdr st).finalizedHeadersBySlot s =
      if s = hdr.slot then some hdr.body_root
      else st.finalizedHeadersBySlot s := rfl

/-! ## State-machine fixtures

A concrete oracle on which every SSZ root is the zero root and every BLS
primitive accepts, and two `initial_sync` payloads that succeed against it:
their Merkle checks pass because folding `constSha` from the zero leaf over
five zero siblings yields the zero root, which is the submitted
`state_root`.  The two headers share the same `body_root` but carry
different slots and validators roots. -/

def okOracle : Oracles where
  sha := constSha
  hash_tree_root_beacon_header := fun _ => some zeroRoot
  hash_tree_root_sync_committee := fun _ => some zeroRoot
  hash_tree_root_fork_data := fun _ => some zeroRoot
  hash_tree_root_signing_data := fun _ => some zeroRoot
  signature_from_bytes_ok := fun _ => true
  pubkey_from_bytes := fun _ => none
  into_aggregate_ok := fun _ => true
  fast_aggregate_verify := fun _ _ _ => true

def branch5 : List H256 := List.replicate 5 zeroRoot

/-- Header at slot 5, all roots zero. -/
def headerA : BeaconBlockHeader :=
  { slot := 5, proposer_index := 0, parent_root := zeroRoot,
    state_root := zeroRoot, body_root := zeroRoot }

/-- Header at slot 7 with the same `body_root` as `headerA`. -/
def headerB : BeaconBlockHeader :=
  { slot := 7, proposer_index := 0, parent_root := zeroRoot,
    state_root := zeroRoot, body_root := zeroRoot }

def vrootA : H256 := List.replicate 32 1

def vrootB : H256 := List.replicate 32 2

def iniA : LightClientInitialSync :=
  { header := headerA, current_sync_committee := defaultSyncCommittee,
    current_sync_committee_branch := branch5, validators_root := vrootA }

def iniB : LightClientInitialSync :=
  { header := headerB, current_sync_committee := defaultSyncCommittee,
    current_sync_committee_branch := branch5, validators_root := vrootB }

/-- The store after `initial_sync(iniA)` from empty storage. -/
def stA : LightClientStore :=
  store_genesis { validators_root := iniA.validators_root }
    (store_header iniA.header
      (store_sync_committee (compute_current_sync_period iniA.header.slot)
        iniA.current_sync_committee initialStore))

/-- The store after a further `initial_sync(iniB)`. -/
def stB : LightClientStore :=
  store_genesis { validators_root := iniB.validators_root }
    (store_header iniB.header
      (store_sync_committee (compute_current_sync_period iniB.header.slot)
        iniB.current_sync_committee stA))

theorem initial_sync_iniA : initial_sync okOracle iniA initialStore =
    some (.ok stA) := rfl

theorem initial_sync_iniB : initial_sync okOracle iniB stA =
    some (.ok stB) := rfl

theorem stB_reachable : Reachable okOracle stB :=
  .initialSyncStep iniB stA stB
    (.initialSyncStep iniA initialStore stA .empty initial_sync_iniA)
    initial_sync_iniB

/-! ## C5: who writes `ChainGenesis` -/

/-- C5, amended: of the four extrinsics only `initial_sync` writes
`ChainGenesis` — the other three preserve it — but every successful
`initial_sync` (not just the first) overwrites it with the submitted
`validators_root`, since nothing guards against re-initialisation. -/
theorem chain_genesis_only_initial_sync_writes :
    ∀ (o : Oracles) (st st' : LightClientStore),
      (∀ u, sync_committee_period_update o u st = some (.ok st') →
        st'.chainGenesis = st.chainGenesis) ∧
      (∀ u, finalized_header_update o u st = some (.ok st') →
        st'.chainGenesis = st.chainGenesis) ∧
      (∀ s, import_finalized_header o s st = some (.ok st') →
        st'.chainGenesis = st.chainGenesis) ∧
      (∀ u, initial_sync o u st = some (.ok st') →
        st'.chainGenesis = { validators_root := u.validators_root }) := by
  intro o st st'
  refine ⟨?_, ?_, ?_, ?_⟩
  · intro u h
    unfold sync_committee_period_update process_sync_committee_period_update at h
    split at h
    · exact absurd h (by simp)
    · exact absurd h (by simp)
    · split at h
      · exact absurd h (by simp)
      · exact absurd h (by simp)
      · simp only [Option.some.injEq, Except.ok.injEq] at h
        subst h
        rfl
  · intro u h
    unfold finalized_header_update process_finalized_header at h
    split at h
    · exact absurd h (by simp)
    · exact absurd h (by simp)
    · simp only [Option.some.injEq, Except.ok.injEq] at h
      subst h
      rfl
  · intro s h
    unfold import_finalized_header verify_and_store_finalized_header at h
    split at h
    · exact absurd h (by simp)
    · dsimp only at h
      split at h
      · exact absurd h (by simp)
      · split at h
        · exact absurd h (by simp)
        · exact absurd h (by simp)
        · simp only [Option.some.injEq, Except.ok.injEq] at h
          subst h
          rfl
  · intro u h
    unfold initial_sync process_initial_sync at h
    split at h
    · exact absurd h (by simp)
    · exact absurd h (by simp)
    · simp only [Option.some.injEq, Except.ok.injEq] at h
      subst h
      rfl

/-- C5 witness: the amendment evaluated on the concrete first
`initial_sync`. -/
theorem chain_genesis_only_initial_sync_writes_witness :
    stA.chainGenesis = { validators_root := iniA.validators_root } :=
  (chain_genesis_only_initial_sync_writes okOracle initialStore stA).2.2.2
    iniA rfl

/-- C5 counterexample: a second successful `initial_sync` (with a different
`validators_root`) changes the stored `Genesis` value. -/
theorem chain_genesis_overwritten_by_second_initial_sync :
    initial_sync okOracle iniA initialStore = some (.ok stA) ∧
    initial_sync okOracle iniB stA = some (.ok stB) ∧
    stB.chainGenesis ≠ stA.chainGenesis :=
  ⟨initial_sync_iniA, initial_sync_iniB, by decide⟩

/-! ## C6: the slot-index invariant -/

/-- Every root stored in `FinalizedHeadersBySlot` is a key of
`FinalizedHeaders`.  (The *slot agreement* half of the spec's invariant is
refuted below.) -/
def headersKeyInvariant (st : LightClientStore) : Prop :=
  ∀ s r, st.finalizedHeadersBySlot s = some r →
    ∃ h, st.finalizedHeaders r = some h

theorem headersKeyInvariant_store_header (hdr : BeaconBlockHeader)
    (st : LightClientStore) (hinv : headersKeyInvariant st) :
    headersKeyInvariant (store_header hdr st) := by
  intro s r hsr
  rw [store_header_finalizedHeadersBySlot] at hsr
  by_cases hrb : r = hdr.body_root
  · exact ⟨hdr, by rw [store_header_finalizedHeaders, if_pos hrb]⟩
  · have hst : st.finalizedHeadersBySlot s = some r := by
      rcases Decidable.em (s = hdr.slot) with hs | hs
      · rw [if_pos hs] at hsr
        cases hsr
        exact absurd rfl hrb
      · rwa [if_neg hs] at hsr
    obtain ⟨h0, hh0⟩ := hinv s r hst
    exact ⟨h0, by rw [store_header_finalizedHeaders, if_neg hrb]; exact hh0⟩

theorem headersKeyInvariant_store_sync_committee (p : Nat)
    (c : SyncCommittee) (st : LightClientStore)
    (hinv : headersKeyInvariant st) :
    headersKeyInvariant (store_sync_committee p c st) := hinv

theorem headersKeyInvariant_store_genesis (g : Genesis)
    (st : LightClientStore) (hinv : headersKeyInvariant st) :
    headersKeyInvariant (store_genesis g st) := hinv

theorem headersKeyInvariant_store_unverified (slot : Nat)
    (uh : LightClientUnverifiedHeader) (st : LightClientStore)
    (hinv : headersKeyInvariant st) :
    headersKeyInvariant (store_unverified_signed_header slot uh st) := hinv

theorem headersKeyInvariant_remove_unverified (slot : Nat)
    (st : LightClientStore) (hinv : headersKeyInvariant st) :
    headersKeyInvariant (remove_unverified_header slot st) := hinv

/-- C6, amended: in every state reachable by any sequence of the four
operations from the empty state, every value `r` of `FinalizedHeadersBySlot`
is a key of `FinalizedHeaders`; the further condition
`FinalizedHeaders[r].slot == s` does not hold in general (see the
counterexample: a later header with the same `body_root` and a different
slot overwrites the entry `r` points at). -/
theorem finalized_by_slot_maps_to_existing_header :
    ∀ (o : Oracles) (st : LightClientStore), Reachable o st →
      ∀ s r, st.finalizedHeadersBySlot s = some r →
        ∃ h, st.finalizedHeaders r = some h := by
  intro o st hreach
  induction hreach with
  | empty => intro s r hsr; exact absurd hsr (by simp [initialStore])
  | initialSyncStep u st1 st' _ hstep ih =>
    unfold initial_sync process_initial_sync at hstep
    split at hstep
    · exact absurd hstep (by simp)
    · exact absurd hstep (by simp)
    · simp only [Option.some.injEq, Except.ok.injEq] at hstep
      subst hstep
      exact headersKeyInvariant_store_genesis _ _
        (headersKeyInvariant_store_header _ _
          (headersKeyInvariant_store_sync_committee _ _ _ ih))
  | committeeUpdateStep u st1 st' _ hstep ih =>
    unfold sync_committee_period_update process_sync_committee_period_update
      at hstep
    split at hstep
    · exact absurd hstep (by simp)
    · exact absurd hstep (by simp)
    · split at hstep
      · exact absurd hstep (by simp)
      · exact absurd hstep (by simp)
      · simp only [Option.some.injEq, Except.ok.injEq] at hstep
        subst hstep
        exact headersKeyInvariant_store_unverified _ _ _
          (headersKeyInvariant_store_sync_committee _ _ _ ih)
  | finalizedUpdateStep u st1 st' _ hstep ih =>
    unfold finalized_header_update process_finalized_header at hstep
    split at hstep
    · exact absurd hstep (by simp)
    · exact absurd hstep (by simp)
    · simp only [Option.some.injEq, Except.ok.injEq] at hstep
      subst hstep
      exact headersKeyInvariant_store_unverified _ _ _ ih
  | importHeaderStep s st1 st' _ hstep ih =>
    unfold import_finalized_header verify_and_store_finalized_header at hstep
    split at hstep
    · exact absurd hstep (by simp)
    · dsimp only at hstep
      split at hstep
      · exact absurd hstep (by simp)
      · split at hstep
        · exact absurd hstep (by simp)
        · exact absurd hstep (by simp)
        · simp only [Option.some.injEq, Except.ok.injEq] at hstep
          subst hstep
          exact headersKeyInvariant_remove_unverified _ _
            (headersKeyInvariant_store_header _ _ ih)

/-- C6 witness: the amended invariant evaluated in the concrete reachable
state `stB` at slot 5. -/
theorem finalized_by_slot_maps_to_existing_header_witness :
    ∃ h, stB.finalizedHeaders zeroRoot = some h :=
  finalized_by_slot_maps_to_existing_header okOracle stB stB_reachable
    5 zeroRoot (by decide)

/-- C6 counterexample: `stB` is reachable (two successful `initial_sync`
calls whose headers share a `body_root` but differ in slot), its slot index
maps slot 5 to the zero root, yet the header stored under that root now has
slot 7. -/
theorem finalized_by_slot_slot_mismatch :
    Reachable okOracle stB ∧
    stB.finalizedHeadersBySlot 5 = some zeroRoot ∧
    stB.finalizedHeaders zeroRoot = some headerB ∧
    headerB.slot ≠ 5 :=
  ⟨stB_reachable, by decide, by decide, by decide⟩

/-! ## C8: successful import unstages and stores -/

/-- C8: whenever `import_finalized_header(slot)` succeeds on a store whose
staged entry at `slot` is `uh`, afterwards the staged entry is gone, and
`uh.finalized_header` is stored in `FinalizedHeaders` under its `body_root`
and in `FinalizedHeadersBySlot` under its slot. -/
theorem import_finalized_header_stores_and_unstages :
    ∀ (o : Oracles) (slot : Nat) (st st' : LightClientStore)
      (uh : LightClientUnverifiedHeader),
      st.unverifiedHeaders slot = some uh →
      import_finalized_header o slot st = some (.ok st') →
      st'.unverifiedHeaders slot = none ∧
      st'.finalizedHeaders uh.finalized_header.body_root =
        some uh.finalized_header ∧
      st'.finalizedHeadersBySlot uh.finalized_header.slot =
        some uh.finalized_header.body_root := by
  intro o slot st st' uh hstaged h
  unfold import_finalized_header verify_and_store_finalized_header at h
  rw [hstaged] at h
  dsimp only at h
  split at h
  · exact absurd h (by simp)
  · split at h
    · exact absurd h (by simp)
    · exact absurd h (by simp)
    · simp only [Option.some.injEq, Except.ok.injEq] at h
      subst h
      refine ⟨by simp [remove_unverified_header], ?_, ?_⟩
      · show (store_header uh.finalized_header st).finalizedHeaders _ = _
        rw [store_header_finalizedHeaders, if_pos rfl]
      · show (store_header uh.finalized_header st).finalizedHeadersBySlot _ = _
        rw [store_header_finalizedHeadersBySlot, if_pos rfl]

/-- A nonempty sync committee (one 48-byte key of ones). -/
def committeeW : SyncCommittee :=
  { pubkeys := [List.replicate 48 1], aggregate_pubkey := defaultPublicKey }

/-- A sync aggregate with one participating bit. -/
def aggW : SyncAggregate :=
  { sync_committee_bits := [1], sync_committee_signature := [0] }

/-- A staged unverified header for the C8 witness. -/
def uhW : LightClientUnverifiedHeader :=
  { attested_header := headerA, finalized_header := headerB,
    sync_aggregate := aggW, fork_version := [0, 0, 0, 0], period := 0 }

/-- Store with `uhW` staged at slot 3 and a nonzero committee at period 0. -/
def stW : LightClientStore :=
  { initialStore with
    unverifiedHeaders := fun s => if s = 3 then some uhW else none
    syncCommittees := fun p => if p = 0 then committeeW
                               else defaultSyncCommittee }

/-- The store after a successful `import_finalized_header(3)` on `stW`. -/
def stW' : LightClientStore :=
  remove_unverified_header 3 (store_header uhW.finalized_header stW)

/-- C8 witness: a concrete successful import. -/
theorem import_finalized_header_stores_and_unstages_witness :
    stW'.unverifiedHeaders 3 = none ∧
    stW'.finalizedHeaders uhW.finalized_header.body_root =
      some uhW.finalized_header ∧
    stW'.finalizedHeadersBySlot uhW.finalized_header.slot =
      some uhW.finalized_header.body_root :=
  import_finalized_header_stores_and_unstages okOracle 3 stW stW' uhW rfl rfl

/-! ## C9: missing sync committee -/

/-- C9: with a staged header at `slot` whose period holds the zero committee
(the `ValueQuery` default, i.e. no committee was ever stored), the import
fails with `SyncCommitteeMissing`.  The error propagates out of the
`#[transactional]` extrinsic, which reverts every write, so the staged entry
— untouched even inside this run, since the check precedes all writes — and
all other storage are unchanged. -/
theorem import_finalized_header_missing_committee :
    ∀ (o : Oracles) (slot : Nat) (st : LightClientStore)
      (uh : LightClientUnverifiedHeader),
      st.unverifiedHeaders slot = some uh →
      st.syncCommittees uh.period = defaultSyncCommittee →
      verify_and_store_finalized_header o slot st =
        some (.error (.module .syncCommitteeMissing)) := by
  intro o slot st uh h1 h2
  unfold verify_and_store_finalized_header
  rw [h1]
  dsimp only
  rw [h2, if_pos rfl]

/-- A staged unverified header whose period 2 has no stored committee. -/
def uhM : LightClientUnverifiedHeader :=
  { attested_header := headerA, finalized_header := headerB,
    sync_aggregate := aggW, fork_version := [0, 0, 0, 0], period := 2 }

/-- Store with `uhM` staged at slot 4 and no committees at all. -/
def stM : LightClientStore :=
  { initialStore with
    unverifiedHeaders := fun s => if s = 4 then some uhM else none }

/-- C9 witness: the concrete missing-committee import. -/
theorem import_finalized_header_missing_committee_witness :
    verify_and_store_finalized_header okOracle 4 stM =
      some (.error (.module .syncCommitteeMissing)) :=
  import_finalized_header_missing_committee okOracle 4 stM uhM rfl rfl

end BeaconLightClient
